import Mathlib

/-!
Verification of the `draw_info` mesh-representation core (src/draw_info.hpp,
src/draw_info.cpp) against its specification. Float values (positions, colors,
bone weights) are modelled as rationals: every claim checked here only involves
values and operations on which IEEE float arithmetic is exact.
-/

namespace DrawInfo

/-- A 3-component vector, modelling `glm::vec3`. -/
structure Vec3 where
  x : ℚ
  y : ℚ
  z : ℚ
deriving DecidableEq

/-- Componentwise addition, modelling `glm::vec3` `operator+=`. -/
def Vec3.add (a b : Vec3) : Vec3 :=
  ⟨a.x + b.x, a.y + b.y, a.z + b.z⟩

instance : Add Vec3 :=
  ⟨Vec3.add⟩

/-- Componentwise multiplication, modelling `glm::vec3` `operator*=` (used by
`apply_scale`). -/
def Vec3.mul (a b : Vec3) : Vec3 :=
  ⟨a.x * b.x, a.y * b.y, a.z * b.z⟩

instance : Mul Vec3 :=
  ⟨Vec3.mul⟩

/-- The zero vector (identity translation). -/
def Vec3.zero : Vec3 := ⟨0, 0, 0⟩

/-- The all-ones vector (identity scale). -/
def Vec3.one : Vec3 := ⟨1, 1, 1⟩

/-- A 4x4 matrix, modelling `glm::mat4`; entry `aij` is row i, column j. -/
structure Mat4 where
  a00 : ℚ
  a01 : ℚ
  a02 : ℚ
  a03 : ℚ
  a10 : ℚ
  a11 : ℚ
  a12 : ℚ
  a13 : ℚ
  a20 : ℚ
  a21 : ℚ
  a22 : ℚ
  a23 : ℚ
  a30 : ℚ
  a31 : ℚ
  a32 : ℚ
  a33 : ℚ
deriving DecidableEq

/-- The identity matrix. -/
def Mat4.identity : Mat4 :=
  ⟨1, 0, 0, 0,
   0, 1, 0, 0,
   0, 0, 1, 0,
   0, 0, 0, 1⟩

/-- Matrix-matrix multiplication. -/
def Mat4.mul (m n : Mat4) : Mat4 :=
  ⟨m.a00 * n.a00 + m.a01 * n.a10 + m.a02 * n.a20 + m.a03 * n.a30,
   m.a00 * n.a01 + m.a01 * n.a11 + m.a02 * n.a21 + m.a03 * n.a31,
   m.a00 * n.a02 + m.a01 * n.a12 + m.a02 * n.a22 + m.a03 * n.a32,
   m.a00 * n.a03 + m.a01 * n.a13 + m.a02 * n.a23 + m.a03 * n.a33,
   m.a10 * n.a00 + m.a11 * n.a10 + m.a12 * n.a20 + m.a13 * n.a30,
   m.a10 * n.a01 + m.a11 * n.a11 + m.a12 * n.a21 + m.a13 * n.a31,
   m.a10 * n.a02 + m.a11 * n.a12 + m.a12 * n.a22 + m.a13 * n.a32,
   m.a10 * n.a03 + m.a11 * n.a13 + m.a12 * n.a23 + m.a13 * n.a33,
   m.a20 * n.a00 + m.a21 * n.a10 + m.a22 * n.a20 + m.a23 * n.a30,
   m.a20 * n.a01 + m.a21 * n.a11 + m.a22 * n.a21 + m.a23 * n.a31,
   m.a20 * n.a02 + m.a21 * n.a12 + m.a22 * n.a22 + m.a23 * n.a32,
   m.a20 * n.a03 + m.a21 * n.a13 + m.a22 * n.a23 + m.a23 * n.a33,
   m.a30 * n.a00 + m.a31 * n.a10 + m.a32 * n.a20 + m.a33 * n.a30,
   m.a30 * n.a01 + m.a31 * n.a11 + m.a32 * n.a21 + m.a33 * n.a31,
   m.a30 * n.a02 + m.a31 * n.a12 + m.a32 * n.a22 + m.a33 * n.a32,
   m.a30 * n.a03 + m.a31 * n.a13 + m.a32 * n.a23 + m.a33 * n.a33⟩

/-- `glm::vec3(M * glm::vec4(v, 1.0))`: multiply the homogeneous extension of
`v` by `M` and keep the xyz components, as done in `apply_rotation` and
`apply_transform`. -/
def Mat4.mulVec3w1 (m : Mat4) (v : Vec3) : Vec3 :=
  ⟨m.a00 * v.x + m.a01 * v.y + m.a02 * v.z + m.a03,
   m.a10 * v.x + m.a11 * v.y + m.a12 * v.z + m.a13,
   m.a20 * v.x + m.a21 * v.y + m.a22 * v.z + m.a23⟩

/-- The translation matrix for a vector. -/
def Mat4.translationMat (v : Vec3) : Mat4 :=
  ⟨1, 0, 0, v.x,
   0, 1, 0, v.y,
   0, 0, 1, v.z,
   0, 0, 0, 1⟩

/-- The scale matrix for a componentwise scale vector. -/
def Mat4.scaleMat (s : Vec3) : Mat4 :=
  ⟨s.x, 0, 0, 0,
   0, s.y, 0, 0,
   0, 0, s.z, 0,
   0, 0, 0, 1⟩

/-- Modelled from the spec: the pending-transform type `Transform` comes from
`sbpt_generated_includes.hpp`, which is not among this repository's sources.
Spec section 6 requires it to support get/reset of translation, rotation (as a
matrix), scale, and the full composite matrix; section 4.2 states that resetting
a component yields its identity value (zero translation, identity rotation,
unit scale) and that the full matrix composes translation, rotation and scale
as a single matrix. -/
structure Transform where
  translation : Vec3
  rotation : Mat4
  scale : Vec3
deriving DecidableEq

/-- Modelled from the spec: read the pending translation component. -/
def Transform.get_translation (t : Transform) : Vec3 := t.translation

/-- Modelled from the spec: reset the translation component to zero. -/
def Transform.reset_translation (t : Transform) : Transform :=
  { t with translation := Vec3.zero }

/-- Modelled from the spec: read the pending rotation component as a matrix. -/
def Transform.get_rotation_transform_matrix (t : Transform) : Mat4 := t.rotation

/-- Modelled from the spec: reset the rotation component to the identity. -/
def Transform.reset_rotation (t : Transform) : Transform :=
  { t with rotation := Mat4.identity }

/-- Modelled from the spec: read the pending scale component. -/
def Transform.get_scale (t : Transform) : Vec3 := t.scale

/-- Modelled from the spec: reset the scale component to unit scale. -/
def Transform.reset_scale (t : Transform) : Transform :=
  { t with scale := Vec3.one }

/-- Modelled from the spec: the full composite matrix, composing translation,
rotation and scale as one matrix. -/
def Transform.get_transform_matrix (t : Transform) : Mat4 :=
  (Mat4.translationMat t.translation).mul (t.rotation.mul (Mat4.scaleMat t.scale))

/-- Modelled from the spec: reset every component to its identity value. -/
def Transform.reset (t : Transform) : Transform :=
  { t with translation := Vec3.zero, rotation := Mat4.identity, scale := Vec3.one }

/-- Modelled from the spec: a default-constructed transform carries the
identity in every component (nothing pending). -/
def Transform.identity : Transform :=
  ⟨Vec3.zero, Mat4.identity, Vec3.one⟩

/-- `BufferModificationTracker` (src/draw_info.hpp lines 106-181): two private
booleans, both default-initialized to `false`. -/
structure BufferModificationTracker where
  has_data_in_buffer_ : Bool
  has_been_modified_since_last_buffered_ : Bool
deriving DecidableEq

/-- A default-constructed tracker: both flags `false` (hpp lines 178-180). -/
def BufferModificationTracker.init : BufferModificationTracker :=
  ⟨false, false⟩

/-- `has_data_in_buffer()` (hpp line 145). -/
def BufferModificationTracker.has_data_in_buffer
    (t : BufferModificationTracker) : Bool :=
  t.has_data_in_buffer_

/-- `just_modified()` (hpp lines 116-119): set the modified flag only when data
is in the buffer. -/
def BufferModificationTracker.just_modified
    (t : BufferModificationTracker) : BufferModificationTracker :=
  if t.has_data_in_buffer then
    { t with has_been_modified_since_last_buffered_ := true }
  else
    t

/-- `just_buffered_data()` (hpp lines 127-130). -/
def BufferModificationTracker.just_buffered_data
    (t : BufferModificationTracker) : BufferModificationTracker :=
  { t with has_data_in_buffer_ := true, has_been_modified_since_last_buffered_ := false }

/-- `free_buffered_data()` (hpp line 138): only clears the residency flag. -/
def BufferModificationTracker.free_buffered_data
    (t : BufferModificationTracker) : BufferModificationTracker :=
  { t with has_data_in_buffer_ := false }

/-- `has_been_modified_since_last_buffering()` (hpp lines 155-163). -/
def BufferModificationTracker.has_been_modified_since_last_buffering
    (t : BufferModificationTracker) : Bool :=
  if t.has_data_in_buffer_ then t.has_been_modified_since_last_buffered_ else false

/-- One operation of the tracker's mutating interface. -/
inductive TrackerOp
  | modified
  | buffered
  | freed
deriving DecidableEq

/-- Apply one tracker operation. -/
def BufferModificationTracker.applyOp
    (t : BufferModificationTracker) : TrackerOp → BufferModificationTracker
  | TrackerOp.modified => t.just_modified
  | TrackerOp.buffered => t.just_buffered_data
  | TrackerOp.freed => t.free_buffered_data

/-- Run a sequence of tracker operations, left to right. -/
def runOps (t : BufferModificationTracker) (ops : List TrackerOp) :
    BufferModificationTracker :=
  ops.foldl BufferModificationTracker.applyOp t

/-- `just_modified` iterated n times. -/
def just_modified_iter (n : Nat) (t : BufferModificationTracker) :
    BufferModificationTracker :=
  match n with
  | 0 => t
  | Nat.succ k => (just_modified_iter k t).just_modified

/-- Trackers indistinguishable through the tracker interface: equal residency
flags, and equal modified flags whenever data is in the buffer. -/
def trackerObsEq (t u : BufferModificationTracker) : Prop :=
  t.has_data_in_buffer_ = u.has_data_in_buffer_ ∧
    (t.has_data_in_buffer_ = true →
      t.has_been_modified_since_last_buffered_ = u.has_been_modified_since_last_buffered_)

/-- The fields shared by every IVP-like mesh variant (the `IVPLike` concept,
src/draw_info.hpp lines 35-45); `extra` stands for the attribute arrays a
concrete variant adds on top of these. -/
structure Mesh (α : Type) where
  transform : Transform
  id : Int
  name : String
  indices : List Nat
  xyz_positions : List Vec3
  buffer_modification_tracker : BufferModificationTracker
  extra : α

/-- `apply_translation` (src/draw_info.hpp lines 47-56): add the pending
translation to every position, reset the translation, notify the tracker. -/
def apply_translation {α : Type} (m : Mesh α) : Mesh α :=
  { m with
    xyz_positions := m.xyz_positions.map (fun pos => pos + m.transform.get_translation),
    transform := m.transform.reset_translation,
    buffer_modification_tracker := m.buffer_modification_tracker.just_modified }

/-- `apply_rotation` (src/draw_info.hpp lines 58-68): multiply every position
(homogeneous, w = 1) by the pending rotation matrix, reset the rotation,
notify the tracker. -/
def apply_rotation {α : Type} (m : Mesh α) : Mesh α :=
  { m with
    xyz_positions :=
      m.xyz_positions.map (fun pos => m.transform.get_rotation_transform_matrix.mulVec3w1 pos),
    transform := m.transform.reset_rotation,
    buffer_modification_tracker := m.buffer_modification_tracker.just_modified }

/-- `apply_scale` (src/draw_info.hpp lines 70-79): multiply every position
componentwise by the pending scale, reset the scale, notify the tracker. -/
def apply_scale {α : Type} (m : Mesh α) : Mesh α :=
  { m with
    xyz_positions := m.xyz_positions.map (fun pos => pos * m.transform.get_scale),
    transform := m.transform.reset_scale,
    buffer_modification_tracker := m.buffer_modification_tracker.just_modified }

/-- `apply_transform` (src/draw_info.hpp lines 81-91): multiply every position
(homogeneous, w = 1) by the full composite matrix, reset the whole transform,
notify the tracker. -/
def apply_transform {α : Type} (m : Mesh α) : Mesh α :=
  { m with
    xyz_positions :=
      m.xyz_positions.map (fun pos => m.transform.get_transform_matrix.mulVec3w1 pos),
    transform := m.transform.reset,
    buffer_modification_tracker := m.buffer_modification_tracker.just_modified }

/-- `IndexedVertexPositions` (src/draw_info.hpp lines 201-283). -/
structure IndexedVertexPositions where
  transform : Transform
  id : Int
  name : String
  indices : List Nat
  xyz_positions : List Vec3
  buffer_modification_tracker : BufferModificationTracker

/-- `IVPColor` (src/draw_info.hpp lines 378-446). -/
structure IVPColor where
  logging_enabled : Bool
  transform : Transform
  id : Int
  indices : List Nat
  xyz_positions : List Vec3
  rgb_colors : List Vec3
  name : String
  buffer_modification_tracker : BufferModificationTracker

/-- The `IVPColor(ivp, rgb_colors, id, name)` constructor (src/draw_info.hpp
lines 402-404): copies indices and positions from `ivp`, stores the given
colors, id and name; transform and tracker are default-constructed. The C++
default arguments are `id = -1` and `name = ""`. -/
def IVPColor.ofIVPWithColors (ivp : IndexedVertexPositions) (rgb_colors : List Vec3)
    (id : Int) (name : String) : IVPColor :=
  ⟨false, Transform.identity, id, ivp.indices, ivp.xyz_positions, rgb_colors, name,
    BufferModificationTracker.init⟩

/-- The `IVPColor(ivp, color)` constructor (src/draw_info.hpp lines 391-392):
delegates to the per-vertex-colors constructor with a replicated color array
and, explicitly, the source's own `ivp.id` and `ivp.name`. -/
def IVPColor.ofIVPUniformColor (ivp : IndexedVertexPositions) (color : Vec3) : IVPColor :=
  IVPColor.ofIVPWithColors ivp (List.replicate ivp.xyz_positions.length color) ivp.id ivp.name

/-- `IVPNColor` (src/draw_info.hpp lines 460-519). -/
structure IVPNColor where
  transform : Transform
  id : Int
  indices : List Nat
  xyz_positions : List Vec3
  normals : List Vec3
  rgb_colors : List Vec3
  name : String
  buffer_modification_tracker : BufferModificationTracker

/-- The raw `IVPNColor(indices, xyz_positions, normals, colors, id, name)`
constructor (src/draw_info.hpp lines 493-495). Its member-initializer list is
`indices(indices), xyz_positions(xyz_positions), normals(normals), id(id),
name(name)`: the `colors` parameter is never used, so `rgb_colors` stays
default-constructed (empty). -/
def IVPNColor.ofRaw (indices : List Nat) (xyz_positions normals colors : List Vec3)
    (id : Int) (name : String) : IVPNColor :=
  ⟨Transform.identity, id, indices, xyz_positions, normals, [], name,
    BufferModificationTracker.init⟩

/-- The scan loop of `VertexBoneData::add_bone_data` (src/draw_info.cpp lines
41-59), over the 4 slots stored as (bone id, weight) pairs: the first slot
whose weight equals exactly 0 receives the new pair and the loop returns;
if no slot has weight 0 the record is unchanged. -/
def addBoneLoop (slots : List (Nat × ℚ)) (boneId : Nat) (weight : ℚ) :
    List (Nat × ℚ) :=
  match slots with
  | [] => []
  | (b, w) :: rest =>
    if w = 0 then (boneId, weight) :: rest else (b, w) :: addBoneLoop rest boneId weight

/-- `VertexBoneData` (src/draw_info.hpp lines 782-815): the two parallel
length-4 arrays `indices_of_bones_that_affect_this_vertex` and
`weight_value_of_this_vertex_wrt_bone`, stored zipped as 4 pairs. -/
structure VertexBoneData where
  slots : List (Nat × ℚ)
deriving DecidableEq

/-- A default-constructed `VertexBoneData`: all 4 slots hold (0, 0). -/
def VertexBoneData.init : VertexBoneData :=
  ⟨[(0, 0), (0, 0), (0, 0), (0, 0)]⟩

/-- `VertexBoneData::add_bone_data` (src/draw_info.cpp lines 41-59). -/
def VertexBoneData.add_bone_data (d : VertexBoneData) (boneId : Nat) (weight : ℚ) :
    VertexBoneData :=
  ⟨addBoneLoop d.slots boneId weight⟩

/-- A concrete mesh for evaluating the translation bake: positions
[(0,0,0),(1,0,0)], pending translation (2,3,4). -/
def sampleMesh : Mesh Unit :=
  ⟨⟨⟨2, 3, 4⟩, Mat4.identity, Vec3.one⟩, -1, "", [0, 1, 0],
    [⟨0, 0, 0⟩, ⟨1, 0, 0⟩], BufferModificationTracker.init, ()⟩

/-- A concrete positions-only mesh with id 7, used to evaluate the widening
constructors. -/
def sampleIVP : IndexedVertexPositions :=
  ⟨Transform.identity, 7, "cube", [0, 1, 2],
    [⟨0, 0, 0⟩, ⟨1, 0, 0⟩, ⟨0, 1, 0⟩], BufferModificationTracker.init⟩

lemma Vec3.add_def (a b : Vec3) : a + b = ⟨a.x + b.x, a.y + b.y, a.z + b.z⟩ := rfl

lemma Vec3.mul_def (a b : Vec3) : a * b = ⟨a.x * b.x, a.y * b.y, a.z * b.z⟩ := rfl

lemma Vec3.add_zero_right (v : Vec3) : v + Vec3.zero = v := by
  cases v
  simp [Vec3.add_def, Vec3.zero]

lemma Vec3.mul_one_right (v : Vec3) : v * Vec3.one = v := by
  cases v
  simp [Vec3.mul_def, Vec3.one]

lemma Mat4.identity_mulVec3w1 (v : Vec3) : Mat4.identity.mulVec3w1 v = v := by
  cases v
  simp [Mat4.mulVec3w1, Mat4.identity]

lemma Transform.get_transform_matrix_reset (t : Transform) :
    (t.reset).get_transform_matrix = Mat4.identity := by
  show (Mat4.translationMat Vec3.zero).mul (Mat4.identity.mul (Mat4.scaleMat Vec3.one))
    = Mat4.identity
  simp [Mat4.mul, Mat4.translationMat, Mat4.scaleMat, Mat4.identity, Vec3.zero, Vec3.one]

lemma list_map_id (f : Vec3 → Vec3) (h : ∀ v, f v = v) :
    ∀ l : List Vec3, l.map f = l := by
  intro l
  induction l with
  | nil => rfl
  | cons a t ih => simp [h a, ih]

lemma trackerObsEq_applyOp (t u : BufferModificationTracker) (h : trackerObsEq t u)
    (op : TrackerOp) : trackerObsEq (t.applyOp op) (u.applyOp op) := by
  obtain ⟨td, tm⟩ := t
  obtain ⟨ud, um⟩ := u
  cases td <;> cases tm <;> cases ud <;> cases um <;> cases op <;>
    simp_all [trackerObsEq, BufferModificationTracker.applyOp,
      BufferModificationTracker.just_modified, BufferModificationTracker.just_buffered_data,
      BufferModificationTracker.free_buffered_data, BufferModificationTracker.has_data_in_buffer]

lemma trackerObsEq_runOps (ops : List TrackerOp) :
    ∀ t u : BufferModificationTracker, trackerObsEq t u →
      trackerObsEq (runOps t ops) (runOps u ops) := by
  induction ops with
  | nil => intro t u h; exact h
  | cons op rest ih =>
    intro t u h
    exact ih (t.applyOp op) (u.applyOp op) (trackerObsEq_applyOp t u h op)

lemma trackerObsEq_queries (t u : BufferModificationTracker) (h : trackerObsEq t u) :
    t.has_data_in_buffer = u.has_data_in_buffer ∧
      t.has_been_modified_since_last_buffering = u.has_been_modified_since_last_buffering := by
  obtain ⟨td, tm⟩ := t
  obtain ⟨ud, um⟩ := u
  cases td <;> cases tm <;> cases ud <;> cases um <;>
    simp_all [trackerObsEq, BufferModificationTracker.has_data_in_buffer,
      BufferModificationTracker.has_been_modified_since_last_buffering]

lemma addBoneLoop_first_zero (pre : List (Nat × ℚ)) (hpre : ∀ p ∈ pre, p.2 ≠ 0)
    (b : Nat) (post : List (Nat × ℚ)) (i : Nat) (w : ℚ) :
    addBoneLoop (pre ++ (b, 0) :: post) i w = pre ++ (i, w) :: post := by
  induction pre with
  | nil => simp [addBoneLoop]
  | cons hd tl ih =>
    have hh : hd.2 ≠ 0 := hpre hd (by simp)
    have ht : ∀ p ∈ tl, p.2 ≠ 0 := fun p hp => hpre p (by simp [hp])
    obtain ⟨hb, hw⟩ := hd
    simp only [Prod.snd] at hh
    simp [addBoneLoop, hh, ih ht]

/-- Claim C1: refuted by the code. The raw `IVPNColor` constructor
(src/draw_info.hpp lines 493-495) never initializes `rgb_colors` from its
`colors` parameter, so constructing from equal-length indices, positions,
normals and colors arrays yields an `rgb_colors` array of length 0 while
`xyz_positions` has length 1: the parallel-array length invariant does not
hold for this variant after construction. -/
theorem ivpncolor_raw_constructor_drops_colors :
    (IVPNColor.ofRaw [0] [⟨0, 0, 0⟩] [⟨0, 0, 1⟩] [⟨1, 1, 1⟩] (-1) "").rgb_colors.length = 0 ∧
      (IVPNColor.ofRaw [0] [⟨0, 0, 0⟩] [⟨0, 0, 1⟩] [⟨1, 1, 1⟩] (-1) "").xyz_positions.length = 1 :=
  ⟨rfl, rfl⟩

/-- Claim C2: for every tracker, `just_buffered_data` followed by
`just_modified` makes `has_been_modified_since_last_buffering` return true,
and a subsequent `just_buffered_data` makes it return false again. -/
theorem tracker_buffered_then_modified_needs_reupload (t : BufferModificationTracker) :
    (t.just_buffered_data.just_modified).has_been_modified_since_last_buffering = true ∧
      (t.just_buffered_data.just_modified.just_buffered_data).has_been_modified_since_last_buffering
        = false := by
  obtain ⟨td, tm⟩ := t
  constructor <;> rfl

/-- Claim C3: starting from a freshly constructed tracker (no data in the
buffer), any number of `just_modified` calls leaves the tracker in its initial
state and `has_been_modified_since_last_buffering` returns false. -/
theorem tracker_modified_from_nobuffer_noop (n : Nat) :
    just_modified_iter n BufferModificationTracker.init = BufferModificationTracker.init ∧
      (just_modified_iter n BufferModificationTracker.init).has_been_modified_since_last_buffering
        = false := by
  have key : just_modified_iter n BufferModificationTracker.init
      = BufferModificationTracker.init := by
    induction n with
    | zero => rfl
    | succ k ih => simp [just_modified_iter, ih]; rfl
  exact ⟨key, by rw [key]; rfl⟩

/-- Claim C4: from every tracker state, `free_buffered_data` yields a
non-resident tracker (`has_data_in_buffer` false, the NoBuffer state), and the
result is indistinguishable from a freshly constructed tracker under every
subsequent sequence of tracker operations, as observed through
`has_data_in_buffer` and `has_been_modified_since_last_buffering`. -/
theorem tracker_freed_behaves_like_fresh (t : BufferModificationTracker)
    (ops : List TrackerOp) :
    t.free_buffered_data.has_data_in_buffer = false ∧
      (runOps t.free_buffered_data ops).has_data_in_buffer
        = (runOps BufferModificationTracker.init ops).has_data_in_buffer ∧
      (runOps t.free_buffered_data ops).has_been_modified_since_last_buffering
        = (runOps BufferModificationTracker.init ops).has_been_modified_since_last_buffering := by
  have hstart : trackerObsEq t.free_buffered_data BufferModificationTracker.init := by
    obtain ⟨td, tm⟩ := t
    exact ⟨rfl, by intro hd; exact absurd hd (by simp [BufferModificationTracker.free_buffered_data,
      BufferModificationTracker.init])⟩
  have hrun := trackerObsEq_runOps ops t.free_buffered_data
    BufferModificationTracker.init hstart
  have hq := trackerObsEq_queries _ _ hrun
  exact ⟨rfl, hq.1, hq.2⟩

/-- Claim C5: for any mesh whose positions are [(0,0,0),(1,0,0)] and whose
pending translation is (2,3,4), `apply_translation` yields positions
[(2,3,4),(3,3,4)] and resets the pending translation to (0,0,0); a second
`apply_translation` with no intervening transform change leaves the positions
unchanged. -/
theorem translation_bake_concrete {α : Type} (m : Mesh α)
    (hpos : m.xyz_positions = [⟨0, 0, 0⟩, ⟨1, 0, 0⟩])
    (htr : m.transform.get_translation = ⟨2, 3, 4⟩) :
    (apply_translation m).xyz_positions = [⟨2, 3, 4⟩, ⟨3, 3, 4⟩] ∧
      (apply_translation m).transform.get_translation = ⟨0, 0, 0⟩ ∧
      (apply_translation (apply_translation m)).xyz_positions
        = (apply_translation m).xyz_positions := by
  refine ⟨?_, ?_, ?_⟩
  · simp [apply_translation, hpos, htr, Vec3.add_def]
    norm_num
  · show m.transform.reset_translation.get_translation = Vec3.mk 0 0 0
    rfl
  · show ((apply_translation m).xyz_positions.map
        (fun pos => pos + (apply_translation m).transform.get_translation))
      = (apply_translation m).xyz_positions
    have hzero : (apply_translation m).transform.get_translation = Vec3.zero := rfl
    rw [hzero]
    exact list_map_id (fun pos => pos + Vec3.zero) Vec3.add_zero_right _

/-- Witness for claim C5 at the concrete mesh with positions
[(0,0,0),(1,0,0)] and pending translation (2,3,4). -/
theorem translation_bake_concrete_witness :
    sampleMesh.xyz_positions = [⟨0, 0, 0⟩, ⟨1, 0, 0⟩] ∧
      ((apply_translation sampleMesh).xyz_positions = [⟨2, 3, 4⟩, ⟨3, 3, 4⟩] ∧
        (apply_translation sampleMesh).transform.get_translation = ⟨0, 0, 0⟩ ∧
        (apply_translation (apply_translation sampleMesh)).xyz_positions
          = (apply_translation sampleMesh).xyz_positions) :=
  ⟨rfl, translation_bake_concrete sampleMesh rfl rfl⟩

/-- Claim C6: for every mesh variant and each of the four bake operations,
re-invoking the same bake with no intervening transform change leaves the
positions array unchanged (the second call applies the identity component),
yet the second call still routes through `just_modified` on the tracker. -/
theorem bake_idempotent_per_call {α : Type} (m : Mesh α) :
    (apply_translation (apply_translation m)).xyz_positions
        = (apply_translation m).xyz_positions ∧
      (apply_translation (apply_translation m)).buffer_modification_tracker
        = (apply_translation m).buffer_modification_tracker.just_modified ∧
      (apply_rotation (apply_rotation m)).xyz_positions
        = (apply_rotation m).xyz_positions ∧
      (apply_rotation (apply_rotation m)).buffer_modification_tracker
        = (apply_rotation m).buffer_modification_tracker.just_modified ∧
      (apply_scale (apply_scale m)).xyz_positions
        = (apply_scale m).xyz_positions ∧
      (apply_scale (apply_scale m)).buffer_modification_tracker
        = (apply_scale m).buffer_modification_tracker.just_modified ∧
      (apply_transform (apply_transform m)).xyz_positions
        = (apply_transform m).xyz_positions ∧
      (apply_transform (apply_transform m)).buffer_modification_tracker
        = (apply_transform m).buffer_modification_tracker.just_modified := by
  refine ⟨?_, rfl, ?_, rfl, ?_, rfl, ?_, rfl⟩
  · exact list_map_id (fun pos => pos + Vec3.zero) Vec3.add_zero_right _
  · exact list_map_id (fun pos => Mat4.identity.mulVec3w1 pos) Mat4.identity_mulVec3w1 _
  · exact list_map_id (fun pos => pos * Vec3.one) Vec3.mul_one_right _
  · show ((apply_transform m).xyz_positions.map
        (fun pos => (m.transform.reset.get_transform_matrix).mulVec3w1 pos))
      = (apply_transform m).xyz_positions
    rw [Transform.get_transform_matrix_reset]
    exact list_map_id (fun pos => Mat4.identity.mulVec3w1 pos) Mat4.identity_mulVec3w1 _

/-- Claim C7: on a freshly constructed `VertexBoneData`, four `add_bone_data`
calls with nonzero weights land in slots 0,1,2,3 in call order, and a fifth
call with nonzero weight leaves the record unchanged. -/
theorem add_bone_data_fills_in_order (b1 b2 b3 b4 b5 : Nat) (w1 w2 w3 w4 w5 : ℚ)
    (h1 : w1 ≠ 0) (h2 : w2 ≠ 0) (h3 : w3 ≠ 0) (h4 : w4 ≠ 0) (h5 : w5 ≠ 0) :
    ((((VertexBoneData.init.add_bone_data b1 w1).add_bone_data b2 w2).add_bone_data
          b3 w3).add_bone_data b4 w4).slots
        = [(b1, w1), (b2, w2), (b3, w3), (b4, w4)] ∧
      (((((VertexBoneData.init.add_bone_data b1 w1).add_bone_data b2 w2).add_bone_data
          b3 w3).add_bone_data b4 w4).add_bone_data b5 w5)
        = ((((VertexBoneData.init.add_bone_data b1 w1).add_bone_data b2 w2).add_bone_data
          b3 w3).add_bone_data b4 w4) := by
  constructor <;>
    simp [VertexBoneData.init, VertexBoneData.add_bone_data, addBoneLoop,
      h1, h2, h3, h4, h5]

/-- Witness for claim C7 at bone ids 10,11,12,13,14 and weights
1, 1/2, 1/4, 2, 3. -/
theorem add_bone_data_fills_in_order_witness :
    ((((VertexBoneData.init.add_bone_data 10 1).add_bone_data 11 (1/2)).add_bone_data
          12 (1/4)).add_bone_data 13 2).slots
        = [(10, 1), (11, 1/2), (12, 1/4), (13, 2)] ∧
      (((((VertexBoneData.init.add_bone_data 10 1).add_bone_data 11 (1/2)).add_bone_data
          12 (1/4)).add_bone_data 13 2).add_bone_data 14 3)
        = ((((VertexBoneData.init.add_bone_data 10 1).add_bone_data 11 (1/2)).add_bone_data
          12 (1/4)).add_bone_data 13 2) :=
  add_bone_data_fills_in_order 10 11 12 13 14 1 (1/2) (1/4) 2 3
    (by norm_num) (by norm_num) (by norm_num) (by norm_num) (by norm_num)

/-- Claim C8: on a record whose first empty slot (weight exactly 0) follows a
prefix of occupied (nonzero-weight) slots, `add_bone_data` with weight 0 writes
the bone id into that first empty slot while its weight stays 0, and a
subsequent `add_bone_data` with any weight overwrites that same slot, erasing
the zero-weight influence. -/
theorem add_bone_data_zero_weight_overwritten (pre post : List (Nat × ℚ))
    (b id1 id2 : Nat) (w2 : ℚ) (hpre : ∀ p ∈ pre, p.2 ≠ 0) :
    (VertexBoneData.add_bone_data ⟨pre ++ (b, 0) :: post⟩ id1 0).slots
        = pre ++ (id1, 0) :: post ∧
      ((VertexBoneData.add_bone_data ⟨pre ++ (b, 0) :: post⟩ id1 0).add_bone_data
          id2 w2).slots
        = pre ++ (id2, w2) :: post := by
  have first : (VertexBoneData.add_bone_data ⟨pre ++ (b, 0) :: post⟩ id1 0).slots
      = pre ++ (id1, 0) :: post := by
    show addBoneLoop (pre ++ (b, 0) :: post) id1 0 = pre ++ (id1, 0) :: post
    exact addBoneLoop_first_zero pre hpre b post id1 0
  refine ⟨first, ?_⟩
  show addBoneLoop (VertexBoneData.add_bone_data ⟨pre ++ (b, 0) :: post⟩ id1 0).slots
      id2 w2 = pre ++ (id2, w2) :: post
  rw [first]
  exact addBoneLoop_first_zero pre hpre id1 post id2 w2

/-- Witness for claim C8 on a 4-slot record: slot 0 occupied with weight 1,
slots 1-3 empty; a zero-weight call writes bone id 7 into slot 1, then a call
with bone id 8 and weight 1/2 overwrites that same slot. -/
theorem add_bone_data_zero_weight_overwritten_witness :
    (VertexBoneData.add_bone_data ⟨[(5, 1)] ++ (0, 0) :: [(0, 0), (0, 0)]⟩ 7 0).slots
        = [(5, 1)] ++ (7, 0) :: [(0, 0), (0, 0)] ∧
      ((VertexBoneData.add_bone_data ⟨[(5, 1)] ++ (0, 0) :: [(0, 0), (0, 0)]⟩ 7 0).add_bone_data
          8 (1/2)).slots
        = [(5, 1)] ++ (8, 1/2) :: [(0, 0), (0, 0)] :=
  add_bone_data_zero_weight_overwritten [(5, 1)] [(0, 0), (0, 0)] 0 7 8 (1/2)
    (by intro p hp; simp at hp; subst hp; norm_num)

/-- Claim C9 counterexample: the uniform-color widening constructor
`IVPColor(ivp, color)` passes the source's own `ivp.id` (and `ivp.name`)
through to the delegated constructor, so on a source mesh with id 7 the
widened mesh keeps id 7: by default the identity is preserved, not fresh. -/
theorem widening_preserves_identity_counterexample :
    sampleIVP.id = 7 ∧
      (IVPColor.ofIVPUniformColor sampleIVP ⟨1, 0, 0⟩).id = sampleIVP.id :=
  ⟨rfl, rfl⟩

/-- Claim C9 (amended): widening a positions-only variant into a colored
variant copies `indices` and `xyz_positions` by value and adds the color
array; the uniform-color overload preserves the source's `id` and `name`,
while the per-vertex-colors overload stores exactly the `id` and `name`
arguments it is given (the C++ defaults are the sentinel -1 and the empty
string) and never draws a fresh identity from the global counter. -/
theorem widening_identity_amended (ivp : IndexedVertexPositions) (color : Vec3)
    (rgb : List Vec3) (i : Int) (nm : String) :
    (IVPColor.ofIVPUniformColor ivp color).indices = ivp.indices ∧
      (IVPColor.ofIVPUniformColor ivp color).xyz_positions = ivp.xyz_positions ∧
      (IVPColor.ofIVPUniformColor ivp color).rgb_colors
        = List.replicate ivp.xyz_positions.length color ∧
      (IVPColor.ofIVPUniformColor ivp color).id = ivp.id ∧
      (IVPColor.ofIVPUniformColor ivp color).name = ivp.name ∧
      (IVPColor.ofIVPWithColors ivp rgb i nm).indices = ivp.indices ∧
      (IVPColor.ofIVPWithColors ivp rgb i nm).xyz_positions = ivp.xyz_positions ∧
      (IVPColor.ofIVPWithColors ivp rgb i nm).rgb_colors = rgb ∧
      (IVPColor.ofIVPWithColors ivp rgb i nm).id = i ∧
      (IVPColor.ofIVPWithColors ivp rgb i nm).name = nm :=
  ⟨rfl, rfl, rfl, rfl, rfl, rfl, rfl, rfl, rfl, rfl⟩

/-- Claim C10: each of the four bake operations changes only the positions,
the pending transform and the modification tracker; the `indices` array, `id`,
`name` and every extra attribute of the variant are left untouched. -/
theorem bake_frame_effect {α : Type} (m : Mesh α) :
    (apply_translation m).indices = m.indices ∧
      (apply_translation m).id = m.id ∧
      (apply_translation m).name = m.name ∧
      (apply_translation m).extra = m.extra ∧
      (apply_rotation m).indices = m.indices ∧
      (apply_rotation m).id = m.id ∧
      (apply_rotation m).name = m.name ∧
      (apply_rotation m).extra = m.extra ∧
      (apply_scale m).indices = m.indices ∧
      (apply_scale m).id = m.id ∧
      (apply_scale m).name = m.name ∧
      (apply_scale m).extra = m.extra ∧
      (apply_transform m).indices = m.indices ∧
      (apply_transform m).id = m.id ∧
      (apply_transform m).name = m.name ∧
      (apply_transform m).extra = m.extra :=
  ⟨rfl, rfl, rfl, rfl, rfl, rfl, rfl, rfl, rfl, rfl, rfl, rfl, rfl, rfl, rfl, rfl⟩

end DrawInfo
